import Mathlib

/-!
Verification of the positional wire-encoding layer in
`backend/common/src/node_types.rs` of substrate-telemetry.

The file shallowly embeds the record types and their custom serde
`Serialize`/`Deserialize` implementations. The wire is modelled
format-agnostically, exactly at the granularity the custom serializers see:
a tuple (list) of typed slots. Machine scalars carry no arithmetic in this
layer, so a `u64` is a `Fin (2 ^ 64)` and an IEEE float is its bit pattern
(`f32` as `Fin (2 ^ 32)`, `f64` as `Fin (2 ^ 64)`); round-tripping a float
is exactly preservation of its bit pattern.
-/

namespace NodeTypes

instance : NeZero (2 ^ 64) := ⟨by norm_num⟩

instance : NeZero (2 ^ 32) := ⟨by norm_num⟩

/-- Rust `u64` values; the codec copies them without arithmetic. -/
abbrev U64 := Fin (2 ^ 64)

/-- Bit patterns of Rust `f32` values; the codec copies them without
float arithmetic, so a float is identified with its 32 bits. -/
abbrev F32 := Fin (2 ^ 32)

/-- Bit patterns of Rust `f64` values. -/
abbrev F64 := Fin (2 ^ 64)

/-- `primitive_types::H256`: exactly 32 bytes (a 256-bit hash). -/
abbrev BlockHash := { l : List (Fin 256) // l.length = 32 }

/-- One slot of a wire tuple, typed the way the serde serializers emit it:
unsigned 64-bit integers, float bit patterns, strings, 256-bit hashes,
optional integers, and sequences of floats (the `slice()` digests). -/
inductive WireElem where
  | u64 (v : U64)
  | f32 (bits : F32)
  | f64 (bits : F64)
  | str (s : String)
  | hash (h : BlockHash)
  | optU64 (o : Option U64)
  | seqF32 (xs : List F32)
  | seqF64 (xs : List F64)
deriving DecidableEq

/-- The positional wire tuple a record encodes to: an ordered list of slots. -/
abbrev WireTuple := List WireElem

/-- Modelled from the spec: `MeanList` (the Rolling Sample Collector) is code
of this repository outside the given sources; the spec says it accumulates a
stream of numeric samples and exposes a read-only ordered digest that is not
reconstructible from the digest alone. We model its observable state as the
current compacted digest (what `slice()` returns) together with the raw
accumulated samples that the compaction has consumed, which are internal
state invisible in the digest. -/
structure MeanList (α : Type) where
  digest : List α
  samples : List α
deriving DecidableEq

/-- `MeanList::slice()`: the read-only ordered digest handed to the codec. -/
def MeanList.slice {α : Type} (m : MeanList α) : List α :=
  m.digest

/-- `struct NodeStats { peers: u64, txcount: u64 }`. -/
structure NodeStats where
  peers : U64
  txcount : U64
deriving DecidableEq

/-- `#[derive(Default)]` on `NodeStats`: both `u64` fields default to 0. -/
def NodeStats.default : NodeStats :=
  { peers := 0, txcount := 0 }

/-- `impl Serialize for NodeStats`: a 2-tuple (peers, txcount). -/
def NodeStats.serialize (s : NodeStats) : WireTuple :=
  [WireElem.u64 s.peers, WireElem.u64 s.txcount]

/-- `impl Deserialize for NodeStats`: reads a `(u64, u64)` tuple, failing on
any other shape. -/
def NodeStats.deserialize : WireTuple → Except String NodeStats
  | [WireElem.u64 p, WireElem.u64 t] => Except.ok { peers := p, txcount := t }
  | _ => Except.error "invalid shape: expected a tuple of two u64 slots"

/-- `struct NodeIO { used_state_cache_size: MeanList<f32> }`. The Rust name
is `NodeIO`. -/
structure NodeIo where
  used_state_cache_size : MeanList F32
deriving DecidableEq

/-- `impl Serialize for NodeIO`: a 1-tuple holding the digest slice. There is
no `Deserialize` impl for this type in the source. -/
def NodeIo.serialize (io : NodeIo) : WireTuple :=
  [WireElem.seqF32 io.used_state_cache_size.slice]

/-- `struct Block { hash: BlockHash, height: BlockNumber }`. -/
structure Block where
  hash : BlockHash
  height : U64
deriving DecidableEq

/-- `Block::zero()`: hash of 32 zero bytes and height 0. -/
def Block.zero : Block :=
  { hash := ⟨List.replicate 32 0, by simp⟩, height := 0 }

/-- `struct NodeHardware { upload, download, chart_stamps: MeanList<f64> }`. -/
structure NodeHardware where
  upload : MeanList F64
  download : MeanList F64
  chart_stamps : MeanList F64
deriving DecidableEq

/-- `impl Serialize for NodeHardware`: a 3-tuple of the three digest slices,
in the fixed order upload, download, chart_stamps. There is no `Deserialize`
impl for this type in the source. -/
def NodeHardware.serialize (h : NodeHardware) : WireTuple :=
  [WireElem.seqF64 h.upload.slice,
    WireElem.seqF64 h.download.slice,
    WireElem.seqF64 h.chart_stamps.slice]

/-- `struct NodeLocation { latitude: f32, longitude: f32, city: Box<str> }`. -/
structure NodeLocation where
  latitude : F32
  longitude : F32
  city : String
deriving DecidableEq

/-- `impl Serialize for NodeLocation`: a 3-tuple (latitude, longitude, city). -/
def NodeLocation.serialize (l : NodeLocation) : WireTuple :=
  [WireElem.f32 l.latitude, WireElem.f32 l.longitude, WireElem.str l.city]

/-- `impl Deserialize for NodeLocation`: reads an `(f32, f32, Box<str>)`
tuple, failing on any other shape. -/
def NodeLocation.deserialize : WireTuple → Except String NodeLocation
  | [WireElem.f32 la, WireElem.f32 lo, WireElem.str c] =>
      Except.ok { latitude := la, longitude := lo, city := c }
  | _ => Except.error "invalid shape: expected a tuple of f32, f32 and a string"

/-- `struct BlockDetails { block: Block, block_time: u64, block_timestamp:
u64, propagation_time: Option<u64> }`. -/
structure BlockDetails where
  block : Block
  block_time : U64
  block_timestamp : U64
  propagation_time : Option U64
deriving DecidableEq

/-- `impl Default for BlockDetails`. The wall clock `time::now()` is code of
this repository outside the given sources; following the spec (an injectable
time source read once at construction) the current time is a parameter. -/
def BlockDetails.default (now : U64) : BlockDetails :=
  { block := Block.zero
    block_timestamp := now
    block_time := 0
    propagation_time := none }

/-- `impl Serialize for BlockDetails`: a 5-tuple that flattens the nested
`Block`, promoting height and hash ahead of the timing fields:
(height, hash, block_time, block_timestamp, propagation_time). -/
def BlockDetails.serialize (b : BlockDetails) : WireTuple :=
  [WireElem.u64 b.block.height,
    WireElem.hash b.block.hash,
    WireElem.u64 b.block_time,
    WireElem.u64 b.block_timestamp,
    WireElem.optU64 b.propagation_time]

/-- `impl Deserialize for BlockDetails`: reads a
`(u64, BlockHash, u64, u64, Option<u64>)` tuple and rebuilds the nested
`Block` from the two promoted slots, failing on any other shape. -/
def BlockDetails.deserialize : WireTuple → Except String BlockDetails
  | [WireElem.u64 ht, WireElem.hash hs, WireElem.u64 bt,
      WireElem.u64 ts, WireElem.optU64 pt] =>
      Except.ok
        { block := { height := ht, hash := hs }
          block_time := bt
          block_timestamp := ts
          propagation_time := pt }
  | _ =>
      Except.error "invalid shape: expected a tuple of u64, hash, u64, u64 and optional u64"

/-- Claim C3: for every NodeStats value x, decode(encode(x)) = x, and encode
emits the 2-slot tuple (peers, txcount) of 64-bit unsigned integers in that
fixed order. -/
theorem nodeStats_roundtrip :
    ∀ s : NodeStats,
      NodeStats.deserialize (NodeStats.serialize s) = Except.ok s ∧
      NodeStats.serialize s = [WireElem.u64 s.peers, WireElem.u64 s.txcount] :=
  fun _ => ⟨rfl, rfl⟩

/-- Claim C2: for every NodeLocation value x, decode(encode(x)) = x, where
encode emits the 3-slot tuple (latitude, longitude, city) in that fixed
order; floats are modelled as their bit patterns, so the round trip
preserves the exact bit patterns. -/
theorem nodeLocation_roundtrip :
    ∀ l : NodeLocation,
      NodeLocation.deserialize (NodeLocation.serialize l) = Except.ok l ∧
      NodeLocation.serialize l =
        [WireElem.f32 l.latitude, WireElem.f32 l.longitude, WireElem.str l.city] :=
  fun _ => ⟨rfl, rfl⟩

/-- Claim C1: for every BlockDetails value x, decode(encode(x)) = x; encode
flattens the nested Block so the wire tuple is (height, hash, block_time,
block_timestamp, propagation_time); the given example encodes to the literal
tuple (5, H, 2, 1000, present 7); and decode rebuilds the nested Block from
the two promoted slots. -/
theorem blockDetails_roundtrip_remap :
    (∀ b : BlockDetails,
        BlockDetails.deserialize (BlockDetails.serialize b) = Except.ok b) ∧
    (∀ hs : BlockHash,
        BlockDetails.serialize
            { block := { height := 5, hash := hs }, block_time := 2,
              block_timestamp := 1000, propagation_time := some 7 } =
          [WireElem.u64 5, WireElem.hash hs, WireElem.u64 2, WireElem.u64 1000,
            WireElem.optU64 (some 7)]) ∧
    (∀ (ht : U64) (hs : BlockHash) (bt ts : U64) (pt : Option U64),
        BlockDetails.deserialize
            [WireElem.u64 ht, WireElem.hash hs, WireElem.u64 bt,
              WireElem.u64 ts, WireElem.optU64 pt] =
          Except.ok
            { block := { height := ht, hash := hs }, block_time := bt,
              block_timestamp := ts, propagation_time := pt }) :=
  ⟨fun _ => rfl, fun _ => rfl, fun _ _ _ _ _ => rfl⟩

/-- Claim C4: the one-way types expose no decode. In the embedding this is
witnessed semantically: distinct NodeIo values (and distinct NodeHardware
values), differing only in collector state invisible in the digest, encode
to identical wire tuples, so no decode operation reconstructing the
structured value from the encoded digest tuple can exist. -/
theorem oneWay_encodings_collide :
    (∃ a b : NodeIo, a ≠ b ∧ NodeIo.serialize a = NodeIo.serialize b) ∧
    (∃ a b : NodeHardware,
      a ≠ b ∧ NodeHardware.serialize a = NodeHardware.serialize b) := by
  constructor
  · refine ⟨⟨⟨[], []⟩⟩, ⟨⟨[], [0]⟩⟩, ?_, rfl⟩
    decide
  · refine ⟨⟨⟨[], []⟩, ⟨[], []⟩, ⟨[], []⟩⟩, ⟨⟨[], [0]⟩, ⟨[], []⟩, ⟨[], []⟩⟩, ?_, rfl⟩
    decide

/-- Claim C5: encoding NodeHardware emits exactly 3 slots, the upload digest
then the download digest then the chart_stamps digest, and the output is
determined by the three digests alone, regardless of other collector
internal state. -/
theorem nodeHardware_digest_order :
    ∀ h g : NodeHardware,
      (NodeHardware.serialize h).length = 3 ∧
      NodeHardware.serialize h =
        [WireElem.seqF64 h.upload.digest, WireElem.seqF64 h.download.digest,
          WireElem.seqF64 h.chart_stamps.digest] ∧
      (NodeHardware.serialize h = NodeHardware.serialize g ↔
        h.upload.digest = g.upload.digest ∧ h.download.digest = g.download.digest ∧
          h.chart_stamps.digest = g.chart_stamps.digest) := by
  intro h g
  refine ⟨rfl, rfl, ?_⟩
  simp [NodeHardware.serialize, MeanList.slice]

/-- Claim C6: for each reversible record type, decoding any wire tuple
either fails with a decode error, or succeeds on exactly the canonical
shape: the decoded value re-encodes to the very tuple given, so no
mismatched tuple is silently coerced or truncated into a value. -/
theorem reversible_decode_no_coercion :
    ∀ t : WireTuple,
      ((∃ x, NodeStats.deserialize t = Except.ok x ∧ NodeStats.serialize x = t) ∨
        (∃ e, NodeStats.deserialize t = Except.error e)) ∧
      ((∃ x, NodeLocation.deserialize t = Except.ok x ∧ NodeLocation.serialize x = t) ∨
        (∃ e, NodeLocation.deserialize t = Except.error e)) ∧
      ((∃ x, BlockDetails.deserialize t = Except.ok x ∧ BlockDetails.serialize x = t) ∨
        (∃ e, BlockDetails.deserialize t = Except.error e)) := by
  intro t
  refine ⟨?_, ?_, ?_⟩
  · unfold NodeStats.deserialize
    split
    · exact Or.inl ⟨_, rfl, rfl⟩
    · exact Or.inr ⟨_, rfl⟩
  · unfold NodeLocation.deserialize
    split
    · exact Or.inl ⟨_, rfl, rfl⟩
    · exact Or.inr ⟨_, rfl⟩
  · unfold BlockDetails.deserialize
    split
    · exact Or.inl ⟨_, rfl, rfl⟩
    · exact Or.inr ⟨_, rfl⟩

/-- Claim C7: default construction of BlockDetails yields the zero Block,
block_time 0, propagation_time absent, and block_timestamp equal to the
wall-clock time read once at construction (the injected now). -/
theorem blockDetails_default_fields :
    ∀ now : U64,
      (BlockDetails.default now).block = Block.zero ∧
      (BlockDetails.default now).block_time = 0 ∧
      (BlockDetails.default now).propagation_time = none ∧
      (BlockDetails.default now).block_timestamp = now :=
  fun _ => ⟨rfl, rfl, rfl, rfl⟩

/-- Claim C8: Block.zero is the constant Block with height 0 and a hash of
exactly 32 zero bytes. -/
theorem block_zero_value :
    Block.zero.height = 0 ∧ Block.zero.hash.val.length = 32 ∧
      Block.zero.hash.val = List.replicate 32 (0 : Fin 256) :=
  ⟨rfl, rfl, rfl⟩

/-- Claim C9: the default NodeStats value has peers 0 and txcount 0. -/
theorem nodeStats_default_zero :
    NodeStats.default.peers = 0 ∧ NodeStats.default.txcount = 0 :=
  ⟨rfl, rfl⟩

/-- Claim C10: decode is total on well-shaped tuples, not only on encoded
values: every (u64, u64) tuple decodes to a NodeStats that re-encodes to
the same tuple, and every (u64, hash, u64, u64, optional u64) tuple decodes
to a BlockDetails that re-encodes to the same tuple. -/
theorem decode_total_on_shaped :
    (∀ p t : U64,
        NodeStats.deserialize [WireElem.u64 p, WireElem.u64 t] =
            Except.ok { peers := p, txcount := t } ∧
          NodeStats.serialize { peers := p, txcount := t } =
            [WireElem.u64 p, WireElem.u64 t]) ∧
    (∀ (ht : U64) (hs : BlockHash) (bt ts : U64) (pt : Option U64),
        ∃ b : BlockDetails,
          BlockDetails.deserialize
              [WireElem.u64 ht, WireElem.hash hs, WireElem.u64 bt,
                WireElem.u64 ts, WireElem.optU64 pt] = Except.ok b ∧
            BlockDetails.serialize b =
              [WireElem.u64 ht, WireElem.hash hs, WireElem.u64 bt,
                WireElem.u64 ts, WireElem.optU64 pt]) :=
  ⟨fun _ _ => ⟨rfl, rfl⟩, fun _ _ _ _ _ => ⟨_, rfl, rfl⟩⟩

end NodeTypes
